import Mathlib

/-!
Shallow embedding of the watch-list tracker's data/query core:
the category registry, status options and seed dataset
(`src/unnamed/part_000`, i.e. `constants.tsx`) and the search-preview
and theme-resolution logic of `src/components/Layout.tsx`.

Strings are modelled as Lean `String`s; the JavaScript string operations
used by the code (`trim`, `toLowerCase`, `includes`) are modelled
character-wise on `String.data`, with ASCII case folding (`Char.toLower`)
and the ASCII whitespace class (`Char.isWhitespace`), which is the
behaviour exercised by all data in the repository.
-/

/-- Model of `String.prototype.toLowerCase` (ASCII case folding). -/
def jsToLower (s : String) : String := ⟨s.data.map Char.toLower⟩

/-- Characters remaining after dropping whitespace from both ends. -/
def trimChars (l : List Char) : List Char :=
  ((l.dropWhile Char.isWhitespace).reverse.dropWhile Char.isWhitespace).reverse

/-- Model of `String.prototype.trim`. -/
def jsTrim (s : String) : String := ⟨trimChars s.data⟩

/-- Does `s` start with the characters `sub`? Model of a match at index 0. -/
def startsWithL : List Char → List Char → Bool
  | _, [] => true
  | [], _ => false
  | c :: cs, d :: ds => c == d && startsWithL cs ds

/-- Does `sub` occur contiguously inside `s`? -/
def includesL : List Char → List Char → Bool
  | [], sub => sub.isEmpty
  | c :: cs, sub => startsWithL (c :: cs) sub || includesL cs sub

/-- Model of `String.prototype.includes`: `jsIncludes s sub` is `s.includes(sub)`. -/
def jsIncludes (s sub : String) : Bool := includesL s.data sub.data

/-- Modelled from the spec: the `CategoryInfo` record shape declared in the
missing `types.ts` (§3 of the spec), with exactly the fields the registry
entries of `constants.tsx` carry. -/
structure CategoryInfo where
  id : String
  name : String
  color : String
  gradient : String
  path : String
deriving DecidableEq, Repr

/-- Modelled from the spec: the `WatchItem` record shape declared in the
missing `types.ts` (§3 of the spec), with exactly the fields the seed
records of `constants.tsx` carry (`watchLink` and `trailerUrl` optional). -/
structure WatchItem where
  id : String
  category : String
  title : String
  year : Int
  poster : String
  myRating : Int
  episodes : Nat
  episodesWatched : Nat
  status : String
  genres : List String
  watchLink : Option String
  trailerUrl : Option String
  dateAdded : String
  lastUpdated : String
  favorite : Bool
deriving DecidableEq, Repr

/-- Shape of an entry of `STATUS_OPTIONS` in `constants.tsx`. -/
structure StatusOption where
  value : String
  label : String
  color : String
deriving DecidableEq, Repr

/-- The category registry `CATEGORIES` of `constants.tsx`. -/
def CATEGORIES : List CategoryInfo := [
  { id := "kdrama", name := "K-DRAMA", color := "#A42EFF",
    gradient := "from-[#1a0a2e] to-[#A42EFF]", path := "/kdrama" },
  { id := "kmovie", name := "K-MOVIE", color := "#A42EFF",
    gradient := "from-[#1a0a2e] to-[#A42EFF]", path := "/kmovie" },
  { id := "hdrama", name := "H-DRAMA", color := "#5045D9",
    gradient := "from-[#0a0a2e] to-[#5045D9]", path := "/hdrama" },
  { id := "hmovie", name := "H-MOVIE", color := "#5045D9",
    gradient := "from-[#0a0a2e] to-[#5045D9]", path := "/hmovie" },
  { id := "bdrama", name := "B-DRAMA", color := "#E81717",
    gradient := "from-[#2e0a0a] to-[#E81717]", path := "/bdrama" },
  { id := "bmovie", name := "B-MOVIE", color := "#E81717",
    gradient := "from-[#2e0a0a] to-[#E81717]", path := "/bmovie" },
  { id := "cdrama", name := "C-DRAMA", color := "#F7D625",
    gradient := "from-[#2e2a0a] to-[#F7D625]", path := "/cdrama" },
  { id := "anime", name := "ANIME", color := "#FF7DE8",
    gradient := "from-[#2e0a26] to-[#FF7DE8]", path := "/anime" }]

/-- The `GENRE_OPTIONS` list of `constants.tsx`. -/
def GENRE_OPTIONS : List String := [
  "Romance", "Drama", "Comedy", "Action", "Thriller", "Fantasy", "Horror", "Sci-Fi",
  "Historical", "Mystery", "Slice of Life", "Adventure", "Supernatural", "Crime",
  "Family", "Music", "Sports", "Martial Arts"]

/-- The `STATUS_OPTIONS` list of `constants.tsx`. -/
def STATUS_OPTIONS : List StatusOption := [
  { value := "watching", label := "Watching", color := "#4CAF50" },
  { value := "completed", label := "Completed", color := "#2196F3" },
  { value := "plan-to-watch", label := "Plan to Watch", color := "#FFC107" },
  { value := "on-hold", label := "On Hold", color := "#9E9E9E" },
  { value := "dropped", label := "Dropped", color := "#F44336" }]

/-- First record of `INITIAL_DATA` in `constants.tsx`. -/
def lovelyRunner : WatchItem :=
  { id := "kd001", category := "kdrama", title := "Lovely Runner", year := 2024,
    poster := "https://picsum.photos/seed/lovely/500/750", myRating := 10,
    episodes := 16, episodesWatched := 16, status := "completed",
    genres := ["Romance", "Fantasy", "Comedy"],
    watchLink := some "https://example.com/watch/lovely-runner",
    trailerUrl := some "https://www.youtube.com/watch?v=8M7Y703sZSc",
    dateAdded := "2024-12-15", lastUpdated := "2024-12-16", favorite := true }

/-- Second record of `INITIAL_DATA` in `constants.tsx`. -/
def duneTwo : WatchItem :=
  { id := "hm001", category := "hmovie", title := "Dune: Part Two", year := 2024,
    poster := "https://picsum.photos/seed/dune/500/750", myRating := 9,
    episodes := 1, episodesWatched := 1, status := "completed",
    genres := ["Sci-Fi", "Adventure", "Drama"],
    watchLink := some "https://example.com/watch/dune-2", trailerUrl := none,
    dateAdded := "2024-12-10", lastUpdated := "2024-12-12", favorite := true }

/-- Third record of `INITIAL_DATA` in `constants.tsx`. -/
def jujutsuKaisen : WatchItem :=
  { id := "ani001", category := "anime", title := "Jujutsu Kaisen", year := 2023,
    poster := "https://picsum.photos/seed/jjk/500/750", myRating := 9,
    episodes := 24, episodesWatched := 24, status := "completed",
    genres := ["Action", "Fantasy", "Supernatural"],
    watchLink := some "https://example.com/watch/jujutsu-kaisen", trailerUrl := none,
    dateAdded := "2024-11-20", lastUpdated := "2024-11-25", favorite := true }

/-- Fourth record of `INITIAL_DATA` in `constants.tsx`. -/
def loveBetweenFairyAndDevil : WatchItem :=
  { id := "cd001", category := "cdrama", title := "Love Between Fairy and Devil",
    year := 2022, poster := "https://picsum.photos/seed/fairy/500/750", myRating := 8,
    episodes := 36, episodesWatched := 36, status := "completed",
    genres := ["Romance", "Fantasy"],
    watchLink := some "https://example.com/watch/fairy-devil", trailerUrl := none,
    dateAdded := "2024-10-05", lastUpdated := "2024-10-06", favorite := false }

/-- The seed dataset `INITIAL_DATA` of `constants.tsx`. -/
def INITIAL_DATA : List WatchItem :=
  [lovelyRunner, duneTwo, jujutsuKaisen, loveBetweenFairyAndDevil]

/-- The `searchPreview` memo of `Layout.tsx` (lines 124-129):
if the trimmed query is empty the result is `[]`; otherwise the items whose
lowercased title contains the lowercased (raw, untrimmed) query, capped at 5. -/
def searchPreview (items : List WatchItem) (searchQuery : String) : List WatchItem :=
  if jsTrim searchQuery = "" then []
  else (items.filter fun item =>
    jsIncludes (jsToLower item.title) (jsToLower searchQuery)).take 5

/-- The `currentCategory` memo of `Layout.tsx` (lines 96-98): the first
registry entry whose `path` equals the current pathname. -/
def currentCategory (pathname : String) : Option CategoryInfo :=
  CATEGORIES.find? fun cat => pathname == cat.path

/-- The `themeColor` computation of `Layout.tsx` (line 101):
`currentCategory?.color || '#A42EFF'` (a falsy — absent or empty — color
falls back to the default accent). -/
def themeColor (pathname : String) : String :=
  match currentCategory pathname with
  | some cat => if cat.color = "" then "#A42EFF" else cat.color
  | none => "#A42EFF"

/-- An auxiliary seed-like item used for concrete test inputs. -/
def mkItem (i t : String) : WatchItem :=
  { id := i, category := "kdrama", title := t, year := 2024, poster := "p",
    myRating := 5, episodes := 1, episodesWatched := 0, status := "plan-to-watch",
    genres := [], watchLink := none, trailerUrl := none,
    dateAdded := "2024-01-01", lastUpdated := "2024-01-01", favorite := false }

/-- An item transformation that keeps `title` and `id` but changes several
non-title fields, used to exercise the title-only property concretely. -/
def bumpFields (i : WatchItem) : WatchItem :=
  { i with
    year := i.year + 1,
    category := "anime",
    status := "dropped",
    genres := [],
    favorite := !i.favorite }

/-! ### Lemmas about the string model -/

theorem startsWithL_append (sub t : List Char) : startsWithL (sub ++ t) sub = true := by
  induction sub with
  | nil => cases t <;> rfl
  | cons d ds ih => simp [startsWithL, ih]

theorem includesL_nil_right (s : List Char) : includesL s [] = true := by
  cases s <;> rfl

theorem includesL_append_left (pre s sub : List Char) (h : includesL s sub = true) :
    includesL (pre ++ s) sub = true := by
  induction pre with
  | nil => simpa using h
  | cons p ps ih => simp [includesL, ih]

theorem includesL_of_decomp (pre sub post : List Char) :
    includesL (pre ++ (sub ++ post)) sub = true := by
  apply includesL_append_left
  cases sub with
  | nil => exact includesL_nil_right post
  | cons d ds =>
    have h1 : startsWithL ((d :: ds) ++ post) (d :: ds) = true := startsWithL_append _ _
    simp only [List.cons_append] at h1
    simp [includesL, h1]

theorem startsWithL_decomp (sub s : List Char) (h : startsWithL s sub = true) :
    ∃ post, sub ++ post = s := by
  induction sub generalizing s with
  | nil => exact ⟨s, rfl⟩
  | cons d ds ih =>
    cases s with
    | nil => simp [startsWithL] at h
    | cons c cs =>
      simp only [startsWithL, Bool.and_eq_true, beq_iff_eq] at h
      obtain ⟨post, hp⟩ := ih cs h.2
      exact ⟨post, by simp [h.1, hp]⟩

theorem includesL_decomp (s sub : List Char) (h : includesL s sub = true) :
    ∃ pre post, pre ++ (sub ++ post) = s := by
  induction s with
  | nil =>
    simp only [includesL, List.isEmpty_iff] at h
    exact ⟨[], [], by simp [h]⟩
  | cons c cs ih =>
    simp only [includesL, Bool.or_eq_true] at h
    rcases h with h | h
    · obtain ⟨post, hp⟩ := startsWithL_decomp sub (c :: cs) h
      exact ⟨[], post, by simpa using hp⟩
    · obtain ⟨pre, post, hp⟩ := ih h
      exact ⟨c :: pre, post, by simp [hp]⟩

theorem dropWhile_decomp (p : Char → Bool) (l : List Char) :
    ∃ pre, pre ++ l.dropWhile p = l := by
  induction l with
  | nil => exact ⟨[], rfl⟩
  | cons c cs ih =>
    by_cases hc : p c = true
    · obtain ⟨pre, hp⟩ := ih
      exact ⟨c :: pre, by simp [List.dropWhile_cons, hc, hp]⟩
    · exact ⟨[], by simp [List.dropWhile_cons, hc]⟩

theorem trimChars_decomp (l : List Char) :
    ∃ pre post, pre ++ (trimChars l ++ post) = l := by
  obtain ⟨p1, h1⟩ := dropWhile_decomp Char.isWhitespace l
  obtain ⟨p2, h2⟩ :=
    dropWhile_decomp Char.isWhitespace (l.dropWhile Char.isWhitespace).reverse
  refine ⟨p1, p2.reverse, ?_⟩
  have h3 : trimChars l ++ p2.reverse = l.dropWhile Char.isWhitespace := by
    have := congrArg List.reverse h2
    simpa [trimChars, List.reverse_append] using this
  rw [← List.append_assoc, List.append_assoc p1, h3, h1]

theorem includesL_map_trim (s q : List Char) (f : Char → Char)
    (h : includesL s (q.map f) = true) :
    includesL s ((trimChars q).map f) = true := by
  obtain ⟨a, b, hab⟩ := includesL_decomp s (q.map f) h
  obtain ⟨pre, post, hq⟩ := trimChars_decomp q
  have hmap : q.map f = pre.map f ++ ((trimChars q).map f ++ post.map f) := by
    conv_lhs => rw [← hq]
    simp
  have hs : (a ++ pre.map f) ++ ((trimChars q).map f ++ (post.map f ++ b)) = s := by
    rw [← hab, hmap]; simp
  rw [← hs]
  exact includesL_of_decomp _ _ _

/-! ### Claim theorems -/

/-- C1: every item in the result of `searchPreview items q` has a title that,
compared case-insensitively, contains the trimmed query as a substring. -/
theorem search_result_matches_trimmed_query (items : List WatchItem) (q : String)
    (i : WatchItem) (h : i ∈ searchPreview items q) :
    jsIncludes (jsToLower i.title) (jsToLower (jsTrim q)) = true := by
  by_cases hq : jsTrim q = ""
  · simp [searchPreview, hq] at h
  · simp only [searchPreview, if_neg hq] at h
    have h1 : i ∈ items.filter fun item =>
        jsIncludes (jsToLower item.title) (jsToLower q) := List.mem_of_mem_take h
    have h2 := List.of_mem_filter h1
    exact includesL_map_trim (jsToLower i.title).data q.data Char.toLower h2

theorem search_result_matches_trimmed_query_witness :
    lovelyRunner ∈ searchPreview INITIAL_DATA "Love" ∧
    jsIncludes (jsToLower lovelyRunner.title) (jsToLower (jsTrim "Love")) = true :=
  ⟨by decide,
   search_result_matches_trimmed_query INITIAL_DATA "Love" lovelyRunner (by decide)⟩

/-- C2: the result of `searchPreview` never has more than 5 items; with 7 items
whose titles all contain the queried substring, it has exactly 5. -/
theorem search_capped_at_five :
    (∀ (items : List WatchItem) (q : String), (searchPreview items q).length ≤ 5) ∧
    (searchPreview [mkItem "s1" "Love A", mkItem "s2" "Love B", mkItem "s3" "Love C",
      mkItem "s4" "Love D", mkItem "s5" "Love E", mkItem "s6" "Love F",
      mkItem "s7" "Love G"] "Love").length = 5 := by
  refine ⟨?_, by decide⟩
  intro items q
  unfold searchPreview
  split
  · simp
  · exact List.length_take_le 5 _

/-- C3 counterexample: searching a one-item list titled `"ab"` with the raw
query `" a"` returns nothing, but searching with its trimmed form `"a"` finds
the item, so `searchPreview items q = searchPreview items (jsTrim q)` fails. -/
theorem search_not_invariant_under_trim :
    ¬ (searchPreview [mkItem "x1" "ab"] " a" =
       searchPreview [mkItem "x1" "ab"] (jsTrim " a")) := by decide

/-- C3 amended: the query is trimmed only for the emptiness test, not before
the containment test; `searchPreview items q = searchPreview items (jsTrim q)`
is guaranteed when `q` is already trimmed or trims to the empty string. -/
theorem search_trims_only_for_emptiness (items : List WatchItem) (q : String)
    (h : jsTrim q = q ∨ jsTrim q = "") :
    searchPreview items q = searchPreview items (jsTrim q) := by
  rcases h with h | h
  · rw [h]
  · rw [h]
    have h0 : jsTrim "" = "" := rfl
    simp [searchPreview, h, h0]

theorem search_trims_only_for_emptiness_witness :
    (jsTrim "  " = "  " ∨ jsTrim "  " = "") ∧
    searchPreview INITIAL_DATA "  " = searchPreview INITIAL_DATA (jsTrim "  ") :=
  ⟨Or.inr (by decide),
   search_trims_only_for_emptiness INITIAL_DATA "  " (Or.inr (by decide))⟩

/-- C4: a query that is empty or whitespace-only (i.e. trims to the empty
string) yields the empty result, whatever the item list. -/
theorem search_empty_on_blank_query (items : List WatchItem) (q : String)
    (h : jsTrim q = "") : searchPreview items q = [] := by
  simp [searchPreview, h]

theorem search_empty_on_blank_query_witness :
    jsTrim "   " = "" ∧ searchPreview INITIAL_DATA "   " = [] :=
  ⟨by decide, search_empty_on_blank_query INITIAL_DATA "   " (by decide)⟩

/-- C5: the result of `searchPreview` is a subsequence of the input list, so
any two items in the result keep their relative order from the input. -/
theorem search_result_sublist (items : List WatchItem) (q : String) :
    (searchPreview items q).Sublist items := by
  unfold searchPreview
  split
  · exact List.nil_sublist items
  · exact (List.take_sublist 5 _).trans (List.filter_sublist items)

/-- C6: for a path equal to some category's route path, `themeColor` returns
that category's color; for any path outside the registry it returns the
default `"#A42EFF"`; and lookup for `"/anime"` returns the ANIME record with
color `"#FF7DE8"`. -/
theorem themeColor_registry_resolution :
    (∀ c ∈ CATEGORIES, themeColor c.path = c.color) ∧
    (∀ p : String, p ∉ CATEGORIES.map CategoryInfo.path → themeColor p = "#A42EFF") ∧
    currentCategory "/anime" =
      some { id := "anime", name := "ANIME", color := "#FF7DE8",
             gradient := "from-[#2e0a26] to-[#FF7DE8]", path := "/anime" } := by
  refine ⟨by decide, ?_, by decide⟩
  intro p hp
  have h0 : CATEGORIES.find? (fun cat => p == cat.path) = none := by
    rw [List.find?_eq_none]
    intro c hc
    simp only [beq_iff_eq]
    intro he
    exact hp (List.mem_map.mpr ⟨c, hc, he.symm⟩)
  simp [themeColor, currentCategory, h0]

theorem themeColor_registry_resolution_witness :
    themeColor "/anime" = "#FF7DE8" ∧ themeColor "/nope" = "#A42EFF" :=
  ⟨themeColor_registry_resolution.1
    ⟨"anime", "ANIME", "#FF7DE8", "from-[#2e0a26] to-[#FF7DE8]", "/anime"⟩ (by decide),
   themeColor_registry_resolution.2.1 "/nope" (by decide)⟩

/-- C7: search depends on titles only — mapping any transformation that
preserves `title` and `id` over the items commutes with `searchPreview`; and
on the three seed titles, query `"ov"` returns exactly the Lovely Runner
item. -/
theorem search_depends_on_title_only (items : List WatchItem) (g : WatchItem → WatchItem)
    (q : String) (htitle : ∀ i, (g i).title = i.title) (hid : ∀ i, (g i).id = i.id) :
    searchPreview (items.map g) q = (searchPreview items q).map g ∧
    searchPreview [lovelyRunner, duneTwo, jujutsuKaisen] "ov" = [lovelyRunner] := by
  refine ⟨?_, by decide⟩
  unfold searchPreview
  split
  · simp
  · rw [List.filter_map, List.map_take]
    congr 2
    apply List.filter_congr
    intro i hi
    simp only [Function.comp_apply]
    rw [htitle i]

theorem search_depends_on_title_only_witness :
    (searchPreview (INITIAL_DATA.map bumpFields) "Love" =
      (searchPreview INITIAL_DATA "Love").map bumpFields) ∧
    searchPreview [lovelyRunner, duneTwo, jujutsuKaisen] "ov" = [lovelyRunner] :=
  search_depends_on_title_only INITIAL_DATA bumpFields "Love"
    (fun i => rfl) (fun i => rfl)

/-- C8: the seed dataset satisfies the collection invariants: pairwise
distinct ids, categories drawn from the registry ids, and statuses drawn from
the five enumerated status values. -/
theorem seed_data_invariants :
    (INITIAL_DATA.map WatchItem.id).Nodup ∧
    (∀ i ∈ INITIAL_DATA, i.category ∈ CATEGORIES.map CategoryInfo.id) ∧
    (∀ i ∈ INITIAL_DATA, i.status ∈ STATUS_OPTIONS.map StatusOption.value) := by
  decide

theorem seed_data_invariants_witness :
    (INITIAL_DATA.map WatchItem.id).Nodup ∧
    lovelyRunner.category ∈ CATEGORIES.map CategoryInfo.id ∧
    lovelyRunner.status ∈ STATUS_OPTIONS.map StatusOption.value :=
  ⟨seed_data_invariants.1,
   seed_data_invariants.2.1 lovelyRunner (by decide),
   seed_data_invariants.2.2 lovelyRunner (by decide)⟩

/-- C9: for a query whose trimmed form is non-empty, the result is exactly the
first `min 5 n` items, in input order, among the `n` items whose lowercased
title contains the lowercased raw (untrimmed) query. -/
theorem search_returns_first_five_matches (items : List WatchItem) (q : String)
    (h : ¬ jsTrim q = "") :
    searchPreview items q =
      (items.filter fun i => jsIncludes (jsToLower i.title) (jsToLower q)).take 5 ∧
    (searchPreview items q).length =
      min 5 (items.filter fun i => jsIncludes (jsToLower i.title) (jsToLower q)).length := by
  constructor
  · simp [searchPreview, h]
  · simp [searchPreview, h, List.length_take]

theorem search_returns_first_five_matches_witness :
    ¬ jsTrim "Love" = "" ∧
    (searchPreview INITIAL_DATA "Love" =
      (INITIAL_DATA.filter fun i =>
        jsIncludes (jsToLower i.title) (jsToLower "Love")).take 5 ∧
     (searchPreview INITIAL_DATA "Love").length =
      min 5 (INITIAL_DATA.filter fun i =>
        jsIncludes (jsToLower i.title) (jsToLower "Love")).length) :=
  ⟨by decide, search_returns_first_five_matches INITIAL_DATA "Love" (by decide)⟩

/-- C10: the fallback accent `"#A42EFF"` coincides with the kdrama and kmovie
category colors, so the resolved theme color is the same for `"/"`,
`"/admin"`, `"/kdrama"` and `"/kmovie"`. -/
theorem default_color_matches_kdrama_kmovie :
    themeColor "/" = "#A42EFF" ∧ themeColor "/admin" = "#A42EFF" ∧
    themeColor "/kdrama" = "#A42EFF" ∧ themeColor "/kmovie" = "#A42EFF" ∧
    (∃ c ∈ CATEGORIES, c.id = "kdrama" ∧ c.color = "#A42EFF") ∧
    (∃ c ∈ CATEGORIES, c.id = "kmovie" ∧ c.color = "#A42EFF") := by decide
